import Mathlib

set_option maxRecDepth 8000

/-
Shallow embedding of the import engine of csv2O (src/main.go).

The embedded fragment is the pure core of `ImportExcel`: header
reconciliation (main.go lines 433-454), per-cell type coercion
(lines 590-626), the smart date parser `tryParseDate` (lines 651-666)
together with Go `time.Parse` restricted to the six layouts the source
uses, and the batch writer `flush` (lines 488-587) with its row-by-row
failure-isolation pass.

Modelling conventions:
- Strings are Lean `String`; the Go functions `strings.TrimSpace`,
  `strings.EqualFold`, `strings.ToUpper/ToLower` and `strings.Contains`
  are modelled on their ASCII behaviour (all data relevant to the
  claims is ASCII; Go additionally folds non-ASCII case and trims
  non-ASCII Unicode spaces).
- The database is an abstract oracle (`DBModel`): the outcome of a bulk
  statement and of a single-row statement is a function of the bound
  arguments, returning `none` for success or `some msg` for the driver
  error text.  Transactions commit successfully whenever the statement
  itself succeeded, matching the happy path of the source.
- Go panics (nil map/slice indexing) are modelled by `Option`, with
  `none` marking the panic.
-/

/-- Go `unicode.IsSpace` restricted to the ASCII whitespace characters. -/
def goIsSpace (c : Char) : Bool :=
  c == ' ' || c == '\t' || c == '\n' || c == '\r' || c == '\x0b' || c == '\x0c'

/-- Model of Go `strings.TrimSpace`: drop leading and trailing whitespace. -/
def trimSpace (s : String) : String :=
  ⟨((s.data.dropWhile goIsSpace).reverse.dropWhile goIsSpace).reverse⟩

/-- Model of Go `strings.ToUpper` (ASCII). -/
def goToUpper (s : String) : String := ⟨s.data.map Char.toUpper⟩

/-- Model of Go `strings.ToLower` (ASCII). -/
def goToLower (s : String) : String := ⟨s.data.map Char.toLower⟩

/-- Model of Go `strings.EqualFold` (ASCII simple case folding). -/
def eqFold (a b : String) : Bool :=
  goToLower a == goToLower b

/-- Is `p` a prefix of `s` (character-wise)?  Helper for `containsL`. -/
def isPrefixL : List Char → List Char → Bool
  | [], _ => true
  | _ :: _, [] => false
  | p :: ps, c :: cs => p == c && isPrefixL ps cs

/-- Substring search on character lists.  Helper for `goContains`. -/
def containsL : List Char → List Char → Bool
  | _, [] => true
  | [], _ :: _ => false
  | c :: cs, p :: ps => isPrefixL (p :: ps) (c :: cs) || containsL cs (p :: ps)

/-- Model of Go `strings.Contains`. -/
def goContains (s sub : String) : Bool :=
  containsL s.data sub.data

/-- One column of the target table, as scanned from the catalog query
(`TableColumnInfo` in main.go). -/
structure TableColumnInfo where
  ColumnName : String
  DataType : String
  DataLength : Nat
deriving DecidableEq, Repr

/-- The header-match predicate of main.go line 440:
`strings.EqualFold(strings.TrimSpace(header), dbCol.ColumnName)`. -/
def headerMatch (header colName : String) : Bool :=
  eqFold (trimSpace header) colName

/-- The inner loop of the reconciliation (main.go lines 439-446): index of
the first source header matching the column name, scanning left to right. -/
def findHeader (headers : List String) (name : String) : Option Nat :=
  match headers with
  | [] => none
  | h :: t => if headerMatch h name then some 0 else (findHeader t name).map (· + 1)

/-- Header reconciliation (main.go lines 434-450): returns the
column-name→header-index mapping, the matched column names and the
unmatched column names, in source order. -/
def matchHeaders : List TableColumnInfo → List String →
    List (String × Nat) × List String × List String
  | [], _ => ([], [], [])
  | c :: cs, headers =>
    match findHeader headers c.ColumnName with
    | some idx =>
      let r := matchHeaders cs headers
      ((c.ColumnName, idx) :: r.1, c.ColumnName :: r.2.1, r.2.2)
    | none =>
      let r := matchHeaders cs headers
      (r.1, r.2.1, c.ColumnName :: r.2.2)

/- ----------------------------------------------------------------
Go `time.Parse` restricted to the six layouts used by `tryParseDate`.
---------------------------------------------------------------- -/

/-- A wall-clock instant as produced by Go `time.Parse` on the layouts of
`tryParseDate` (all are timezone-free). -/
structure GoTime where
  year : Nat
  month : Nat
  day : Nat
  hour : Nat
  minute : Nat
  second : Nat
deriving DecidableEq, Repr

/-- The zero `time.Time{}` value: January 1, year 1, 00:00:00. -/
def zeroGoTime : GoTime := ⟨1, 1, 1, 0, 0, 0⟩

def isDigitCh (c : Char) : Bool := '0' ≤ c && c ≤ '9'

def digitVal (c : Char) : Nat := c.toNat - '0'.toNat

/-- Go `getnum`: one or two digits when `fixed = false`, exactly two
digits when `fixed = true`. -/
def getnum2 (fixed : Bool) : List Char → Option (Nat × List Char)
  | [] => none
  | [c1] =>
    if isDigitCh c1 then (if fixed then none else some (digitVal c1, [])) else none
  | c1 :: c2 :: rest =>
    if isDigitCh c1 then
      if isDigitCh c2 then some (digitVal c1 * 10 + digitVal c2, rest)
      else if fixed then none else some (digitVal c1, c2 :: rest)
    else none

/-- Go `stdLongYear` ("2006"): exactly four digits. -/
def getnum4 : List Char → Option (Nat × List Char)
  | a :: b :: c :: d :: rest =>
    if isDigitCh a && isDigitCh b && isDigitCh c && isDigitCh d then
      some (((digitVal a * 10 + digitVal b) * 10 + digitVal c) * 10 + digitVal d, rest)
    else none
  | _ => none

/-- Match one literal layout character. -/
def litCh (ch : Char) : List Char → Option (List Char)
  | [] => none
  | c :: rest => if c == ch then some rest else none

/-- Case-insensitive (ASCII) prefix strip, as in Go time's `match`. -/
def stripCaseless : List Char → List Char → Option (List Char)
  | [], cs => some cs
  | _ :: _, [] => none
  | p :: ps, c :: cs => if p.toLower == c.toLower then stripCaseless ps cs else none

def monthNames : List String :=
  ["Jan", "Feb", "Mar", "Apr", "May", "Jun", "Jul", "Aug", "Sep", "Oct", "Nov", "Dec"]

def lookupMonthAux : Nat → List String → List Char → Option (Nat × List Char)
  | _, [], _ => none
  | i, n :: ns, cs =>
    match stripCaseless n.data cs with
    | some rest => some (i, rest)
    | none => lookupMonthAux (i + 1) ns cs

/-- Go time's `lookup(shortMonthNames, value)`: first month name that is a
case-insensitive prefix of the input. -/
def lookupMonth (cs : List Char) : Option (Nat × List Char) :=
  lookupMonthAux 1 monthNames cs

def isLeapYear (y : Nat) : Bool :=
  y % 4 == 0 && (y % 100 != 0 || y % 400 == 0)

def daysIn (m y : Nat) : Nat :=
  if m == 2 then (if isLeapYear y then 29 else 28)
  else if m == 4 || m == 6 || m == 9 || m == 11 then 30
  else 31

/-- Final range validation performed by Go `time.Parse`: month 1-12,
day 1-daysIn(month,year), hour 0-23, minute and second 0-59. -/
def mkGoTime (y mo d h mi s : Nat) : Option GoTime :=
  if 1 ≤ mo && mo ≤ 12 && 1 ≤ d && d ≤ daysIn mo y && h ≤ 23 && mi ≤ 59 && s ≤ 59 then
    some ⟨y, mo, d, h, mi, s⟩
  else none

/-- Layout "2006-01-02 15:04:05".  (Per Go, the hour "15" accepts one or
two digits; month, day, minute, second are fixed two-digit fields.) -/
def parseF1 (cs : List Char) : Option GoTime := do
  let (y, cs) ← getnum4 cs
  let cs ← litCh '-' cs
  let (mo, cs) ← getnum2 true cs
  let cs ← litCh '-' cs
  let (d, cs) ← getnum2 true cs
  let cs ← litCh ' ' cs
  let (h, cs) ← getnum2 false cs
  let cs ← litCh ':' cs
  let (mi, cs) ← getnum2 true cs
  let cs ← litCh ':' cs
  let (s, cs) ← getnum2 true cs
  if cs.isEmpty then mkGoTime y mo d h mi s else none

/-- Layout "2006/1/2 15:04:05". -/
def parseF2 (cs : List Char) : Option GoTime := do
  let (y, cs) ← getnum4 cs
  let cs ← litCh '/' cs
  let (mo, cs) ← getnum2 false cs
  let cs ← litCh '/' cs
  let (d, cs) ← getnum2 false cs
  let cs ← litCh ' ' cs
  let (h, cs) ← getnum2 false cs
  let cs ← litCh ':' cs
  let (mi, cs) ← getnum2 true cs
  let cs ← litCh ':' cs
  let (s, cs) ← getnum2 true cs
  if cs.isEmpty then mkGoTime y mo d h mi s else none

/-- Layout "2006-01-02". -/
def parseF3 (cs : List Char) : Option GoTime := do
  let (y, cs) ← getnum4 cs
  let cs ← litCh '-' cs
  let (mo, cs) ← getnum2 true cs
  let cs ← litCh '-' cs
  let (d, cs) ← getnum2 true cs
  if cs.isEmpty then mkGoTime y mo d 0 0 0 else none

/-- Layout "2006/1/2". -/
def parseF4 (cs : List Char) : Option GoTime := do
  let (y, cs) ← getnum4 cs
  let cs ← litCh '/' cs
  let (mo, cs) ← getnum2 false cs
  let cs ← litCh '/' cs
  let (d, cs) ← getnum2 false cs
  if cs.isEmpty then mkGoTime y mo d 0 0 0 else none

/-- Layout "20060102". -/
def parseF5 (cs : List Char) : Option GoTime := do
  let (y, cs) ← getnum4 cs
  let (mo, cs) ← getnum2 true cs
  let (d, cs) ← getnum2 true cs
  if cs.isEmpty then mkGoTime y mo d 0 0 0 else none

/-- Layout "02-Jan-06".  The two-digit year maps to 19xx for 69-99 and to
20xx for 00-68, as in Go. -/
def parseF6 (cs : List Char) : Option GoTime := do
  let (d, cs) ← getnum2 true cs
  let cs ← litCh '-' cs
  let (mo, cs) ← lookupMonth cs
  let cs ← litCh '-' cs
  let (yy, cs) ← getnum2 true cs
  let y := if yy ≥ 69 then 1900 + yy else 2000 + yy
  if cs.isEmpty then mkGoTime y mo d 0 0 0 else none

/-- `tryParseDate` (main.go lines 651-666): trim, return the zero time for
the empty string, otherwise try the six layouts in order; the first
successful parse wins, total failure yields `none` (= the Go error). -/
def tryParseDate (val : String) : Option GoTime :=
  let v := trimSpace val
  if v == "" then some zeroGoTime
  else
    let cs := v.data
    match parseF1 cs with
    | some t => some t
    | none =>
      match parseF2 cs with
      | some t => some t
      | none =>
        match parseF3 cs with
        | some t => some t
        | none =>
          match parseF4 cs with
          | some t => some t
          | none =>
            match parseF5 cs with
            | some t => some t
            | none => parseF6 cs

def pad2 (n : Nat) : String := if n < 10 then "0" ++ toString n else toString n

def pad4 (n : Nat) : String :=
  if n < 10 then "000" ++ toString n
  else if n < 100 then "00" ++ toString n
  else if n < 1000 then "0" ++ toString n
  else toString n

/-- Go `t.Format("2006-01-02 15:04:05")`. -/
def goFormat (t : GoTime) : String :=
  pad4 t.year ++ "-" ++ pad2 t.month ++ "-" ++ pad2 t.day ++ " " ++
    pad2 t.hour ++ ":" ++ pad2 t.minute ++ ":" ++ pad2 t.second

/- ----------------------------------------------------------------
Type coercion (main.go lines 590-626).
---------------------------------------------------------------- -/

/-- A value placed into a column buffer: either a string bind argument or
the Go `nil` standing for SQL NULL. -/
inductive CellValue where
  | null
  | str (s : String)
deriving DecidableEq, Repr

/-- The two database dialects `ImportExcel` supports.  `ImportExcel`
lower-cases `dbType` and compares against "oracle" / "mysql"; any other
value is rejected before any row is read. -/
inductive Dialect where
  | oracle
  | mysql
deriving DecidableEq, Repr

def parseDialect (dbType : String) : Option Dialect :=
  if goToLower dbType == "oracle" then some .oracle
  else if goToLower dbType == "mysql" then some .mysql
  else none

/-- The date-family test of the coercion branches: Oracle checks
DATE/TIMESTAMP (line 600), MySQL checks DATE/DATETIME/TIMESTAMP (line 613). -/
def dateType : Dialect → String → Bool
  | .oracle, dt => goContains (goToUpper dt) "DATE" || goContains (goToUpper dt) "TIMESTAMP"
  | .mysql, dt =>
    goContains (goToUpper dt) "DATE" || goContains (goToUpper dt) "DATETIME" ||
      goContains (goToUpper dt) "TIMESTAMP"

/-- The numeric-family test of the empty-cell-to-NULL branches: Oracle
checks only NUMBER (line 606), MySQL checks INT/DECIMAL/FLOAT/DOUBLE
(line 619). -/
def numericEmptyType : Dialect → String → Bool
  | .oracle, dt => goContains (goToUpper dt) "NUMBER"
  | .mysql, dt =>
    goContains (goToUpper dt) "INT" || goContains (goToUpper dt) "DECIMAL" ||
      goContains (goToUpper dt) "FLOAT" || goContains (goToUpper dt) "DOUBLE"

/-- Coercion of one (already trimmed) cell for one column (main.go lines
599-625).  `none` is the date-format failure that aborts the import; the
other branches buffer a parsed-and-reformatted date string, the `nil`
NULL marker, or the raw trimmed string. -/
def coerce (d : Dialect) (dataType val : String) : Option CellValue :=
  if dateType d dataType && val != "" then
    match tryParseDate val with
    | some t => some (.str (goFormat t))
    | none => none
  else if numericEmptyType d dataType && val == "" then some .null
  else some (.str val)

/-- Cell extraction of main.go lines 593-596: a missing cell (row shorter
than the mapped header index) is the empty string; a present cell is
trimmed. -/
def cellAt (row : List String) (idx : Nat) : String :=
  match row.get? idx with
  | some s => trimSpace s
  | none => ""

/-- One pass of the inner per-column loop (main.go lines 591-626) over a
single source row: the coerced value for every column, or the raw value
of the first cell whose date parse fails.  (In the source the failing
row's earlier columns have already been appended to their buffers, but
the function returns immediately, so those appends are unobservable.) -/
def coerceRow (d : Dialect) (cols : List TableColumnInfo)
    (mapping : List (String × Nat)) (row : List String) :
    Except String (List CellValue) :=
  match cols with
  | [] => .ok []
  | c :: cs =>
    let val := cellAt row ((mapping.lookup c.ColumnName).getD 0)
    match coerce d c.DataType val with
    | none => .error val
    | some v =>
      match coerceRow d cs mapping row with
      | .error e => .error e
      | .ok vs => .ok (v :: vs)

/- ----------------------------------------------------------------
The batch writer `flush` (main.go lines 488-587) and the main loop
(lines 590-643).
---------------------------------------------------------------- -/

/-- Abstract database: the response to the bulk statement over the whole
buffer and to the single-row statement over one row of bind arguments.
`none` is success, `some msg` the driver's error text.  Reconnection
(Oracle path, line 509) is modelled as yielding an equivalent handle. -/
structure DBModel where
  bulkExec : List (List CellValue) → Option String
  singleExec : List CellValue → Option String

/-- `count := len(columnBuffers[0])` (main.go line 489).  The buffer is
column-major: one list per target column.  (The source would panic on a
table with zero columns; that case is returned earlier, line 428.) -/
def bufCount (buf : List (List CellValue)) : Nat :=
  (buf.headD []).length

/-- The bind arguments of row `k` of the buffer
(`singleArgs[cIdx] = columnBuffers[cIdx][k]`, lines 512-515). -/
def rowArgs (buf : List (List CellValue)) (k : Nat) : List CellValue :=
  buf.map (fun col => col.getD k CellValue.null)

/-- The row-isolation pass (lines 511-525 / 567-578): re-issue the insert
once per buffered row in original order, returning the offset and error
of the first row that fails, or `none` when every row succeeds.  Rows
after the first failure are never attempted. -/
def firstRowFailure (exec : List CellValue → Option String)
    (buf : List (List CellValue)) : Nat → Nat → Option (Nat × String)
  | _, 0 => none
  | k, n + 1 =>
    match exec (rowArgs buf k) with
    | some msg => some (k, msg)
    | none => firstRowFailure exec buf (k + 1) n

/-- The error outcomes of `flush`. -/
inductive FlushError where
  | rowInsert (line : Nat) (msg : String)
  | bulkAnomaly (msg : String)
  | bulkOriginal (msg : String)
deriving DecidableEq, Repr

/-- The Oracle branch of `flush` (lines 496-529).  On bulk failure the
source closes the handle and reassigns `db, err = connectDatabase(...)`;
this overwrites the `err` holding the bulk error, so when every
single-row retry succeeds, line 528 formats the reconnection error —
`nil` after a successful reconnect — into the anomaly message instead of
the original bulk error.  `bulkAnomaly "<nil>"` is exactly that output
(`fmt.Errorf` renders a nil error as "<nil>").  On success the flush
reports the buffered row count added to `successCount`. -/
def flushOracle (dbm : DBModel) (buf : List (List CellValue))
    (startIndex : Nat) : Except FlushError Nat :=
  let count := bufCount buf
  if count == 0 then .ok 0
  else
    match dbm.bulkExec buf with
    | none => .ok count
    | some _bulkMsg =>
      match firstRowFailure dbm.singleExec buf 0 count with
      | some (k, msg) => .error (.rowInsert (startIndex + k + 2) msg)
      | none => .error (.bulkAnomaly "<nil>")

/-- The MySQL branch of `flush` (lines 530-583).  A buffer of size 1 is
written with a plain single-row insert whose failure reports line
`startIndex + 1 + 2` (line 541).  A larger buffer is written with one
multi-row insert (the source binds the buffer's rows flattened
row-major; the abstract `bulkExec` receives the same buffer
column-major, an information-preserving transposition); on failure the
row-isolation pass reports
`startIndex + k + 2` for the first failing offset `k`, and if every row
succeeds the original bulk error is returned verbatim (line 580). -/
def flushMySQL (dbm : DBModel) (buf : List (List CellValue))
    (startIndex : Nat) : Except FlushError Nat :=
  let count := bufCount buf
  if count == 0 then .ok 0
  else if count == 1 then
    match dbm.singleExec (rowArgs buf 0) with
    | some msg => .error (.rowInsert (startIndex + 1 + 2) msg)
    | none => .ok count
  else
    match dbm.bulkExec buf with
    | none => .ok count
    | some bulkMsg =>
      match firstRowFailure dbm.singleExec buf 0 count with
      | some (k, msg) => .error (.rowInsert (startIndex + k + 2) msg)
      | none => .error (.bulkOriginal bulkMsg)

/-- Dialect dispatch inside `flush`. -/
def flushD : Dialect → DBModel → List (List CellValue) → Nat → Except FlushError Nat
  | .oracle, dbm, buf, s => flushOracle dbm buf s
  | .mysql, dbm, buf, s => flushMySQL dbm buf s

/-- Batch size fixed at 1000 (main.go line 356). -/
def batchSize : Nat := 1000

/-- The terminal outcome of one `ImportExcel` invocation (the source
returns each of these as a formatted string). -/
inductive ImportResult where
  | unsupported
  | tableEmpty
  | unmatchedErr (count : Nat)
  | dateErr (line : Nat) (val : String)
  | flushErr (e : FlushError)
  | ok (total : Nat) (successCount : Nat)
deriving DecidableEq, Repr

/-- The data-row loop (main.go lines 590-643).  `i` is the 0-based data
row index, `total` the number of data rows (`totalExcelRows`), `buf` the
column-major buffers, `succ` the running `successCount`.  The returned
trace lists `(startIndex, rowCount)` for every successful flush, in
order (the source emits one progress notification per such flush).
A flush is attempted when `(i+1) % batchSize == 0` or `i` is the last
data row, with `startIndex = (i / batchSize) * batchSize`; afterwards
every column buffer is cleared to length 0 (line 634). -/
def importLoop (d : Dialect) (dbm : DBModel) (cols : List TableColumnInfo)
    (mapping : List (String × Nat)) (total : Nat) :
    Nat → List (List String) → List (List CellValue) → Nat →
      List (Nat × Nat) → ImportResult × List (Nat × Nat)
  | _, [], _, succ, tr => (.ok total succ, tr)
  | i, row :: rest, buf, succ, tr =>
    match coerceRow d cols mapping row with
    | .error v => (.dateErr (i + 2) v, tr)
    | .ok vals =>
      let buf2 := List.zipWith (fun col v => col ++ [v]) buf vals
      if (i + 1) % batchSize == 0 || i == total - 1 then
        let sIdx := i / batchSize * batchSize
        match flushD d dbm buf2 sIdx with
        | .error e => (.flushErr e, tr)
        | .ok n =>
          importLoop d dbm cols mapping total (i + 1) rest
            (cols.map fun _ => []) (succ + n) (tr ++ [(sIdx, bufCount buf2)])
      else importLoop d dbm cols mapping total (i + 1) rest buf2 succ tr

/-- The import pipeline after dialect resolution (main.go lines 428-647):
reject an empty column list, read the header row by indexing `rows[0]`
— `none` models the index-out-of-range panic on an empty grid —
reconcile headers, and run the data loop.  The source's final summary
string prints `totalExcelRows = len(rows) - 1` and `len(dataRows)` (the
same number); `ImportResult.ok` carries `totalExcelRows` together with
the loop's internal `successCount`, which the claims reason about. -/
def importRunD (d : Dialect) (dbm : DBModel) (dbCols : List TableColumnInfo)
    (rows : List (List String)) : Option (ImportResult × List (Nat × Nat)) :=
  if dbCols.isEmpty then some (.tableEmpty, [])
  else
    match rows with
    | [] => none
    | header :: dataRows =>
      let m := matchHeaders dbCols header
      if m.2.2.isEmpty then
        some (importLoop d dbm dbCols m.1 dataRows.length 0 dataRows
          (dbCols.map fun _ => []) 0 [])
      else some (.unmatchedErr m.2.2.length, [])

/-- `ImportExcel` core: dialect check first (lines 393-407), then the
pipeline. -/
def importRows (dbType : String) (dbm : DBModel) (dbCols : List TableColumnInfo)
    (rows : List (List String)) : Option (ImportResult × List (Nat × Nat)) :=
  match parseDialect dbType with
  | none => some (.unsupported, [])
  | some d => importRunD d dbm dbCols rows

/-- A database that accepts every statement. -/
def dbmAllOk : DBModel := ⟨fun _ => none, fun _ => none⟩

/- ----------------------------------------------------------------
Coercion lemmas shared by several claims.
---------------------------------------------------------------- -/

/-- An empty trimmed cell of a numeric-family column (per the dialect's
own keyword set) buffers the `nil` NULL marker. -/
theorem coerce_empty_null (d : Dialect) (dt : String)
    (h : numericEmptyType d dt = true) : coerce d dt "" = some CellValue.null := by
  simp [coerce, h]

/-- An empty trimmed cell of any other column buffers the empty string. -/
theorem coerce_empty_pass (d : Dialect) (dt : String)
    (h : numericEmptyType d dt = false) :
    coerce d dt "" = some (CellValue.str "") := by
  simp [coerce, h]

/-- Coercion of the empty string never fails: the date branch requires a
non-empty cell. -/
theorem coerce_empty_isSome (d : Dialect) (dt : String) :
    (coerce d dt "").isSome = true := by
  cases h : numericEmptyType d dt
  · rw [coerce_empty_pass d dt h]; rfl
  · rw [coerce_empty_null d dt h]; rfl

/-- A non-empty cell of a non-date column passes through unchanged. -/
theorem coerce_pass (d : Dialect) (dt val : String) (h1 : dateType d dt = false)
    (h2 : val ≠ "") : coerce d dt val = some (CellValue.str val) := by
  simp [coerce, h1, h2]

/-- A non-empty cell of a date column whose parse succeeds buffers the
reformatted "YYYY-MM-DD HH:MM:SS" rendering of the parsed instant. -/
theorem coerce_date_normalizes (d : Dialect) (dt val : String) (t : GoTime)
    (h1 : dateType d dt = true) (h2 : val ≠ "") (h3 : tryParseDate val = some t) :
    coerce d dt val = some (CellValue.str (goFormat t)) := by
  simp [coerce, h1, h2, h3]

/- ----------------------------------------------------------------
C1 — row numbering of the failure-isolation paths.
---------------------------------------------------------------- -/

/-- A database that rejects the bulk statement and every single row. -/
def dbmRowFail : DBModel :=
  ⟨fun _ => some "bulk insert failed", fun _ => some "constraint violation"⟩

/-- C1.  For the same one-row batch at `batchStartIndex = 0` whose row
violates a constraint, the MySQL size-1 branch reports absolute row
`0 + 1 + 2 = 3` (main.go line 541), while the Oracle isolation pass over
the identical buffer reports `0 + 0 + 2 = 2` as the claimed formula
`batchStartIndex + k + 2` requires: the size-1 MySQL path is off by one. -/
theorem mysqlSingletonBatchRowNumber :
    flushMySQL dbmRowFail [[CellValue.str "x"]] 0
        = .error (.rowInsert 3 "constraint violation")
    ∧ flushOracle dbmRowFail [[CellValue.str "x"]] 0
        = .error (.rowInsert 2 "constraint violation") :=
  ⟨rfl, rfl⟩

/- ----------------------------------------------------------------
C6 — outcome when the bulk insert fails but every row retry succeeds.
---------------------------------------------------------------- -/

/-- A database that rejects the bulk statement but accepts every
single-row retry. -/
def dbmBulkOnlyFail : DBModel :=
  ⟨fun _ => some "ORA-01722: invalid number", fun _ => none⟩

/-- C6.  When the bulk insert fails and every row-level retry succeeds,
both dialects terminate the import with an error (the batch is never
counted as success, last conjunct), but the Oracle branch reports
`bulkAnomaly "<nil>"` — the reconnection error that overwrote `err` —
instead of the original bulk error "ORA-01722: invalid number", while
the MySQL branch returns the original bulk error verbatim. -/
theorem oracleAnomalyDropsOriginalError :
    flushOracle dbmBulkOnlyFail [[CellValue.str "a", CellValue.str "b"]] 0
        = .error (.bulkAnomaly "<nil>")
    ∧ flushMySQL dbmBulkOnlyFail [[CellValue.str "a", CellValue.str "b"]] 0
        = .error (.bulkOriginal "ORA-01722: invalid number")
    ∧ (∀ (dbm : DBModel) (buf : List (List CellValue)) (s n : Nat) (msg : String),
        bufCount buf ≠ 0 → dbm.bulkExec buf = some msg →
          flushOracle dbm buf s ≠ .ok n)
    ∧ (∀ (dbm : DBModel) (buf : List (List CellValue)) (s n : Nat) (msg : String),
        2 ≤ bufCount buf → dbm.bulkExec buf = some msg →
          flushMySQL dbm buf s ≠ .ok n) := by
  refine ⟨rfl, rfl, ?_, ?_⟩
  · intro dbm buf s n msg hc hbulk
    unfold flushOracle
    have h0 : (bufCount buf == 0) = false := by simp [hc]
    simp only [h0, hbulk, Bool.false_eq_true, if_false]
    cases firstRowFailure dbm.singleExec buf 0 (bufCount buf) with
    | none => simp
    | some p => simp
  · intro dbm buf s n msg hc hbulk
    unfold flushMySQL
    have h0 : (bufCount buf == 0) = false := by simp; omega
    have h1 : (bufCount buf == 1) = false := by simp; omega
    simp only [h0, h1, hbulk, Bool.false_eq_true, if_false]
    cases firstRowFailure dbm.singleExec buf 0 (bufCount buf) with
    | none => simp
    | some p => simp

/- ----------------------------------------------------------------
C3 — empty-cell NULL coercion for numeric columns.
---------------------------------------------------------------- -/

/-- C3 counterexample.  "FLOAT" is in the claimed numeric family, yet on
the Oracle path an empty cell of a FLOAT column is buffered as the empty
string, not as NULL: the Oracle branch only checks for "NUMBER"
(main.go line 606). -/
theorem numericNullClaimCounterexample :
    goContains (goToUpper "FLOAT") "FLOAT" = true ∧
      coerce Dialect.oracle "FLOAT" "" ≠ some CellValue.null := by
  constructor
  · decide
  · decide

/-- C3 amended.  Empty-cell NULL coercion is dialect-specific: the Oracle
path nulls exactly the types containing "NUMBER", the MySQL path exactly
those containing "INT", "DECIMAL", "FLOAT" or "DOUBLE"; a non-empty cell
of a non-date column passes through unchanged, and an empty cell outside
the dialect's numeric family is buffered as the empty string. -/
theorem numericNullPerDialect :
    (∀ dt : String, goContains (goToUpper dt) "NUMBER" = true →
        coerce Dialect.oracle dt "" = some CellValue.null)
    ∧ (∀ dt : String,
        (goContains (goToUpper dt) "INT" || goContains (goToUpper dt) "DECIMAL" ||
          goContains (goToUpper dt) "FLOAT" || goContains (goToUpper dt) "DOUBLE") = true →
        coerce Dialect.mysql dt "" = some CellValue.null)
    ∧ (∀ (d : Dialect) (dt val : String), dateType d dt = false → val ≠ "" →
        coerce d dt val = some (CellValue.str val))
    ∧ (∀ (d : Dialect) (dt : String), numericEmptyType d dt = false →
        coerce d dt "" = some (CellValue.str "")) := by
  refine ⟨?_, ?_, ?_, ?_⟩
  · intro dt h
    exact coerce_empty_null Dialect.oracle dt h
  · intro dt h
    exact coerce_empty_null Dialect.mysql dt h
  · exact coerce_pass
  · exact coerce_empty_pass

/-- Witness for `numericNullPerDialect` at concrete inputs. -/
theorem numericNullPerDialectWitness :
    goContains (goToUpper "NUMBER") "NUMBER" = true ∧
      coerce Dialect.oracle "NUMBER" "" = some CellValue.null ∧
      coerce Dialect.mysql "INT" "" = some CellValue.null ∧
      coerce Dialect.oracle "VARCHAR2" "x" = some (CellValue.str "x") :=
  ⟨by decide, numericNullPerDialect.1 "NUMBER" (by decide),
    numericNullPerDialect.2.1 "INT" (by decide),
    numericNullPerDialect.2.2.1 Dialect.oracle "VARCHAR2" "x" (by decide) (by decide)⟩

/- ----------------------------------------------------------------
C4 — empty cells of date-typed columns.
---------------------------------------------------------------- -/

/-- C4 counterexample.  An empty cell of an Oracle DATE column is not
buffered as the `nil` SQL NULL marker: it falls through to the generic
pass-through branch and is buffered as the empty string. -/
theorem emptyDateNullCounterexample :
    dateType Dialect.oracle "DATE" = true ∧
      coerce Dialect.oracle "DATE" "" ≠ some CellValue.null := by
  constructor
  · decide
  · decide

/-- C4 amended.  For a date-typed column outside the dialect's numeric
family, an empty trimmed cell is buffered as the empty string — not as
the `nil` NULL marker — and produces no error; any NULL conversion
happens only in the database-side date expression of the insert. -/
theorem emptyDateBufferedAsEmptyString (d : Dialect) (dt : String)
    (_h1 : dateType d dt = true) (h2 : numericEmptyType d dt = false) :
    coerce d dt "" = some (CellValue.str "") :=
  coerce_empty_pass d dt h2

/-- Witness for `emptyDateBufferedAsEmptyString` at DATE / DATETIME. -/
theorem emptyDateBufferedWitness :
    dateType Dialect.oracle "DATE" = true ∧
      numericEmptyType Dialect.oracle "DATE" = false ∧
      coerce Dialect.oracle "DATE" "" = some (CellValue.str "") ∧
      coerce Dialect.mysql "DATETIME" "" = some (CellValue.str "") :=
  ⟨by decide, by decide,
    emptyDateBufferedAsEmptyString Dialect.oracle "DATE" (by decide) (by decide),
    emptyDateBufferedAsEmptyString Dialect.mysql "DATETIME" (by decide) (by decide)⟩

/- ----------------------------------------------------------------
C2 — header reconciliation.
---------------------------------------------------------------- -/

/-- `findHeader` succeeds exactly when some source header matches. -/
theorem findHeader_isSome_iff (headers : List String) (name : String) :
    (findHeader headers name).isSome = true ↔
      ∃ h ∈ headers, headerMatch h name = true := by
  induction headers with
  | nil => simp [findHeader]
  | cons h t ih =>
    by_cases hm : headerMatch h name = true
    · simp [findHeader, hm]
    · simp only [findHeader, hm, Bool.false_eq_true, if_false, Option.isSome_map]
      simp [ih, hm]

/-- `findHeader` returns the index of the first matching header: the
returned index matches and every earlier index does not. -/
theorem findHeader_first (headers : List String) (name : String) (i : Nat)
    (h : findHeader headers name = some i) :
    i < headers.length ∧ headerMatch (headers.getD i "") name = true ∧
      ∀ j < i, headerMatch (headers.getD j "") name = false := by
  induction headers generalizing i with
  | nil => simp [findHeader] at h
  | cons hd t ih =>
    by_cases hm : headerMatch hd name = true
    · simp [findHeader, hm] at h
      subst h
      simpa using hm
    · simp only [findHeader, hm, Bool.false_eq_true, if_false, Option.map_eq_some'] at h
      obtain ⟨i0, hi0, hplus⟩ := h
      obtain ⟨hlt, hmatch, hbefore⟩ := ih i0 hi0
      subst hplus
      refine ⟨by simpa using hlt, by simpa using hmatch, ?_⟩
      intro j hj
      cases j with
      | zero => simpa using hm
      | succ j0 => simpa using hbefore j0 (by omega)

/-- The unmatched list is empty exactly when every column has a match. -/
theorem matchHeaders_unmatched_nil_iff (C : List TableColumnInfo) (H : List String) :
    (matchHeaders C H).2.2 = [] ↔
      ∀ c ∈ C, ∃ h ∈ H, headerMatch h c.ColumnName = true := by
  induction C with
  | nil => simp [matchHeaders]
  | cons c cs ih =>
    cases hf : findHeader H c.ColumnName with
    | none =>
      have : ¬ ∃ h ∈ H, headerMatch h c.ColumnName = true := by
        rw [← findHeader_isSome_iff, hf]
        simp
      simp [matchHeaders, hf, this]
    | some idx =>
      have : ∃ h ∈ H, headerMatch h c.ColumnName = true := by
        rw [← findHeader_isSome_iff, hf]
        rfl
      simp [matchHeaders, hf, ih, this]

/-- Matched and unmatched columns partition the column list by count. -/
theorem matchHeaders_count (C : List TableColumnInfo) (H : List String) :
    (matchHeaders C H).2.1.length + (matchHeaders C H).2.2.length = C.length := by
  induction C with
  | nil => simp [matchHeaders]
  | cons c cs ih =>
    cases hf : findHeader H c.ColumnName with
    | none =>
      simp only [matchHeaders, hf, List.length_cons]
      omega
    | some idx =>
      simp only [matchHeaders, hf, List.length_cons]
      omega

/-- Every entry of the produced mapping is a first-match index. -/
theorem matchHeaders_mapping_first (C : List TableColumnInfo) (H : List String) :
    ∀ p ∈ (matchHeaders C H).1, findHeader H p.1 = some p.2 := by
  induction C with
  | nil => simp [matchHeaders]
  | cons c cs ih =>
    cases hf : findHeader H c.ColumnName with
    | none =>
      simpa [matchHeaders, hf] using ih
    | some idx =>
      intro p hp
      simp only [matchHeaders, hf, List.mem_cons] at hp
      cases hp with
      | inl h => subst h; exact hf
      | inr h => exact ih p h

/-- C2.  Header reconciliation succeeds (empty unmatched list) iff every
target column has a case-insensitive, whitespace-trimmed matching source
header; each mapping entry is the first such match; the unmatched count
is `|C| - |matched|`; and a non-empty unmatched list makes the import
return `unmatchedErr` with that count before any buffering: the flush
trace is empty, so zero rows are written. -/
theorem headerReconciliationSpec (C : List TableColumnInfo) (H : List String) :
    ((matchHeaders C H).2.2 = [] ↔
        ∀ c ∈ C, ∃ h ∈ H, headerMatch h c.ColumnName = true)
    ∧ (matchHeaders C H).2.1.length + (matchHeaders C H).2.2.length = C.length
    ∧ (∀ p ∈ (matchHeaders C H).1, findHeader H p.1 = some p.2)
    ∧ (∀ (d : Dialect) (dbm : DBModel) (rest : List (List String)),
        (matchHeaders C H).2.2 ≠ [] →
          importRunD d dbm C (H :: rest)
            = some (.unmatchedErr (matchHeaders C H).2.2.length, [])) := by
  refine ⟨matchHeaders_unmatched_nil_iff C H, matchHeaders_count C H,
    matchHeaders_mapping_first C H, ?_⟩
  intro d dbm rest hne
  have hC : C ≠ [] := by
    intro h
    subst h
    simp [matchHeaders] at hne
  cases C with
  | nil => exact absurd rfl hC
  | cons c cs =>
    have hemp : (matchHeaders (c :: cs) H).2.2.isEmpty = false := by
      cases hu : (matchHeaders (c :: cs) H).2.2 with
      | nil => exact absurd hu hne
      | cons a b => rfl
    simp [importRunD, hemp]

/-- Witness for `headerReconciliationSpec`: one column with no matching
header yields `unmatchedErr 1` and an empty flush trace. -/
theorem headerReconciliationWitness :
    (matchHeaders [⟨"EMAIL", "VARCHAR2", 20⟩] ["ID"]).2.2 ≠ [] ∧
      importRunD Dialect.oracle dbmAllOk [⟨"EMAIL", "VARCHAR2", 20⟩]
          [["ID"], ["1"]]
        = some (.unmatchedErr 1, []) :=
  ⟨by decide,
    (headerReconciliationSpec [⟨"EMAIL", "VARCHAR2", 20⟩] ["ID"]).2.2.2
      Dialect.oracle dbmAllOk [["1"]] (by decide)⟩

/- ----------------------------------------------------------------
C7 — date parsing and normalization.
---------------------------------------------------------------- -/

/-- C7.  On a date-typed column, any cell that `tryParseDate` accepts is
buffered as the normalized "YYYY-MM-DD HH:MM:SS" rendering of the parsed
instant; hence two inputs in different accepted formats denoting the
same instant buffer identically.  The concrete conjuncts exercise all
six layouts, in particular one date written in the four date-only
formats, all normalizing to "2024-03-05 00:00:00". -/
theorem dateNormalizationSpec :
    (∀ (d : Dialect) (dt val : String) (t : GoTime),
        dateType d dt = true → val ≠ "" → tryParseDate val = some t →
          coerce d dt val = some (CellValue.str (goFormat t)))
    ∧ (∀ (d : Dialect) (dt v1 v2 : String) (t : GoTime),
        dateType d dt = true → v1 ≠ "" → v2 ≠ "" →
          tryParseDate v1 = some t → tryParseDate v2 = some t →
            coerce d dt v1 = coerce d dt v2)
    ∧ tryParseDate "2024-03-05 07:08:09" = some ⟨2024, 3, 5, 7, 8, 9⟩
    ∧ tryParseDate "2024/3/5 7:08:09" = some ⟨2024, 3, 5, 7, 8, 9⟩
    ∧ tryParseDate "2024-03-05" = some ⟨2024, 3, 5, 0, 0, 0⟩
    ∧ tryParseDate "2024/3/5" = some ⟨2024, 3, 5, 0, 0, 0⟩
    ∧ tryParseDate "20240305" = some ⟨2024, 3, 5, 0, 0, 0⟩
    ∧ tryParseDate "05-Mar-24" = some ⟨2024, 3, 5, 0, 0, 0⟩
    ∧ coerce Dialect.oracle "DATE" "2024-03-05" = some (.str "2024-03-05 00:00:00")
    ∧ coerce Dialect.oracle "DATE" "2024/3/5" = some (.str "2024-03-05 00:00:00")
    ∧ coerce Dialect.mysql "DATETIME" "20240305" = some (.str "2024-03-05 00:00:00")
    ∧ coerce Dialect.mysql "DATETIME" "05-Mar-24" = some (.str "2024-03-05 00:00:00") := by
  refine ⟨?_, ?_, by decide, by decide, by decide, by decide, by decide, by decide,
    by decide, by decide, by decide, by decide⟩
  · intro d dt val t h1 h2 h3
    exact coerce_date_normalizes d dt val t h1 h2 h3
  · intro d dt v1 v2 t h1 hv1 hv2 hp1 hp2
    rw [coerce_date_normalizes d dt v1 t h1 hv1 hp1,
      coerce_date_normalizes d dt v2 t h1 hv2 hp2]

/-- Witness for `dateNormalizationSpec` at a concrete input. -/
theorem dateNormalizationWitness :
    dateType Dialect.oracle "TIMESTAMP(6)" = true ∧
      tryParseDate "2030/12/31 8:09:10" = some ⟨2030, 12, 31, 8, 9, 10⟩ ∧
      coerce Dialect.oracle "TIMESTAMP(6)" "2030/12/31 8:09:10"
        = some (CellValue.str "2030-12-31 08:09:10") :=
  ⟨by decide, by decide,
    dateNormalizationSpec.1 Dialect.oracle "TIMESTAMP(6)" "2030/12/31 8:09:10"
      ⟨2030, 12, 31, 8, 9, 10⟩ (by decide) (by decide) (by decide)⟩

/- ----------------------------------------------------------------
C8 — unparsable date cells abort the import.
---------------------------------------------------------------- -/

/-- The single DATE column of the C8 scenario. -/
def dateCol : TableColumnInfo := ⟨"D", "DATE", 7⟩

/-- A data row whose date cell parses in none of the six layouts. -/
def badDateRow : List String := ["31/31/2024"]

/-- C8.  A non-empty date cell that fails all six formats stops the loop
at once: whatever rows follow (`rest` is universally quantified, so none
of them is examined, coerced or buffered) and whatever the buffer and
counters hold, the result is `dateErr` with the raw value and absolute
row `i + 2` for 0-based data row `i`.  Concretely, a grid whose 0-based
data row 36 is bad aborts with `dateErr 38 "31/31/2024"` and an empty
flush trace. -/
theorem dateErrorAbortsImport :
    (∀ (d : Dialect) (dbm : DBModel) (total i succ : Nat)
        (rest : List (List String)) (buf : List (List CellValue))
        (tr : List (Nat × Nat)),
        importLoop d dbm [dateCol] [("D", 0)] total i (badDateRow :: rest) buf succ tr
          = (.dateErr (i + 2) "31/31/2024", tr))
    ∧ importRows "oracle" dbmAllOk [dateCol]
        (["D"] :: (List.replicate 36 ["2024-01-02"] ++ badDateRow :: [["x"], ["y"]]))
        = some (.dateErr 38 "31/31/2024", []) := by
  constructor
  · intro d dbm total i succ rest buf tr
    cases d <;> rfl
  · rfl

/- ----------------------------------------------------------------
C9 — rows shorter than a mapped header index.
---------------------------------------------------------------- -/

/-- An index at or past the end of the row reads as the empty string. -/
theorem cellAt_oob (row : List String) (idx : Nat) (h : row.length ≤ idx) :
    cellAt row idx = "" := by
  simp [cellAt, List.getElem?_eq_none h]

/-- A row all of whose mapped indices are out of range coerces without
error, and to exactly the same values as the fully empty row. -/
theorem coerceRow_oob (d : Dialect) (cols : List TableColumnInfo)
    (mapping : List (String × Nat)) (row : List String)
    (h : ∀ c ∈ cols, row.length ≤ (mapping.lookup c.ColumnName).getD 0) :
    ∃ vals, coerceRow d cols mapping row = .ok vals ∧
      coerceRow d cols mapping row = coerceRow d cols mapping [] := by
  induction cols with
  | nil => exact ⟨[], rfl, rfl⟩
  | cons c cs ih =>
    have hcell : cellAt row ((mapping.lookup c.ColumnName).getD 0) = "" :=
      cellAt_oob _ _ (h c (by simp))
    have hcell0 : cellAt ([] : List String) ((mapping.lookup c.ColumnName).getD 0) = "" := by
      apply cellAt_oob
      simp
    obtain ⟨vs, hvs, heq⟩ := ih (fun c hc => h c (by simp [hc]))
    cases hv : coerce d c.DataType "" with
    | none =>
      have := coerce_empty_isSome d c.DataType
      rw [hv] at this
      simp at this
    | some v =>
      refine ⟨v :: vs, ?_, ?_⟩
      · simp [coerceRow, hcell, hv, hvs]
      · simp [coerceRow, hcell, hcell0, hv, hvs, heq.symm.trans hvs]

/-- C9.  A data row with fewer cells than a mapped header index never
causes an out-of-range access or an import failure by itself: the
missing cell reads as the empty string, coercion of the empty string
always succeeds (under the normal empty-cell rules), and a row too short
for every mapped column coerces exactly like the empty row. -/
theorem shortRowsSafe :
    (∀ (row : List String) (idx : Nat), row.length ≤ idx → cellAt row idx = "")
    ∧ (∀ (d : Dialect) (dt : String), (coerce d dt "").isSome = true)
    ∧ (∀ (d : Dialect) (cols : List TableColumnInfo)
        (mapping : List (String × Nat)) (row : List String),
        (∀ c ∈ cols, row.length ≤ (mapping.lookup c.ColumnName).getD 0) →
          ∃ vals, coerceRow d cols mapping row = .ok vals ∧
            coerceRow d cols mapping row = coerceRow d cols mapping []) :=
  ⟨cellAt_oob, coerce_empty_isSome, coerceRow_oob⟩

/-- Witness for `shortRowsSafe` at concrete inputs: a one-cell row read
at index 2, and the empty row against the C8 column set. -/
theorem shortRowsSafeWitness :
    (["a"] : List String).length ≤ 2 ∧ cellAt ["a"] 2 = "" ∧
      (∃ vals, coerceRow Dialect.oracle [dateCol] [("D", 5)] ["a"] = .ok vals ∧
        coerceRow Dialect.oracle [dateCol] [("D", 5)] ["a"]
          = coerceRow Dialect.oracle [dateCol] [("D", 5)] []) :=
  ⟨by decide, shortRowsSafe.1 ["a"] 2 (by decide),
    shortRowsSafe.2.2 Dialect.oracle [dateCol] [("D", 5)] ["a"]
      (by intro c hc; simp at hc; subst hc; decide)⟩

/- ----------------------------------------------------------------
C10 — header access on an empty grid.
---------------------------------------------------------------- -/

/-- C10.  With a valid dialect and a non-empty column list, an empty row
grid reaches the unguarded `rows[0]` header access and the import
panics (`none`) rather than returning any error outcome; any grid with
at least one row always produces a terminal outcome. -/
theorem emptyGridHeaderAccess :
    (∀ (dbm : DBModel) (cols : List TableColumnInfo), cols ≠ [] →
        importRows "oracle" dbm cols [] = none ∧
          importRows "mysql" dbm cols [] = none)
    ∧ (∀ (dbType : String) (dbm : DBModel) (cols : List TableColumnInfo)
        (header : List String) (rest : List (List String)),
        (importRows dbType dbm cols (header :: rest)).isSome = true) := by
  constructor
  · intro dbm cols hc
    cases cols with
    | nil => exact absurd rfl hc
    | cons c cs => exact ⟨rfl, rfl⟩
  · intro dbType dbm cols header rest
    unfold importRows
    cases parseDialect dbType with
    | none => rfl
    | some d =>
      unfold importRunD
      cases cols with
      | nil => rfl
      | cons c cs =>
        simp only [List.isEmpty_cons, Bool.false_eq_true, if_false]
        cases hm : (matchHeaders (c :: cs) header).2.2.isEmpty <;> simp [hm]

/-- Witness for `emptyGridHeaderAccess`: a concrete one-column table and
the empty grid. -/
theorem emptyGridHeaderAccessWitness :
    ([⟨"A", "NUMBER", 22⟩] : List TableColumnInfo) ≠ [] ∧
      importRows "oracle" dbmAllOk [⟨"A", "NUMBER", 22⟩] [] = none :=
  ⟨by decide, (emptyGridHeaderAccess.1 dbmAllOk [⟨"A", "NUMBER", 22⟩] (by decide)).1⟩

/- ----------------------------------------------------------------
C5 — flush triggering, success accounting, and the 1500-row scenario.
---------------------------------------------------------------- -/

/-- Against an always-accepting database every flush succeeds and adds
exactly the buffered row count. -/
theorem flushD_allOk (d : Dialect) (buf : List (List CellValue)) (s : Nat) :
    flushD d dbmAllOk buf s = .ok (bufCount buf) := by
  cases d
  · show flushOracle dbmAllOk buf s = .ok (bufCount buf)
    unfold flushOracle
    by_cases h0 : bufCount buf = 0
    · simp [h0]
    · have e0 : (bufCount buf == 0) = false := by simp [h0]
      simp [e0, dbmAllOk]
  · show flushMySQL dbmAllOk buf s = .ok (bufCount buf)
    unfold flushMySQL
    by_cases h0 : bufCount buf = 0
    · simp [h0]
    · by_cases h1 : bufCount buf = 1
      · simp [h0, h1, dbmAllOk]
      · have e0 : (bufCount buf == 0) = false := by simp [h0]
        have e1 : (bufCount buf == 1) = false := by simp [h1]
        simp [e0, e1, dbmAllOk]

/-- Whenever a flush reports success, the amount added to `successCount`
is exactly the number of buffered rows. -/
theorem flushD_ok_count (d : Dialect) (dbm : DBModel) (buf : List (List CellValue))
    (s n : Nat) (h : flushD d dbm buf s = .ok n) : n = bufCount buf := by
  cases d
  · replace h : flushOracle dbm buf s = .ok n := h
    unfold flushOracle at h
    by_cases h0 : bufCount buf = 0
    · simp [h0] at h
      omega
    · have e0 : (bufCount buf == 0) = false := by simp [h0]
      simp only [e0, Bool.false_eq_true, if_false] at h
      cases hb : dbm.bulkExec buf with
      | none =>
        rw [hb] at h
        simp at h
        omega
      | some m =>
        rw [hb] at h
        cases hf : firstRowFailure dbm.singleExec buf 0 (bufCount buf) with
        | none => rw [hf] at h; simp at h
        | some p => rw [hf] at h; cases p; simp at h
  · replace h : flushMySQL dbm buf s = .ok n := h
    unfold flushMySQL at h
    by_cases h0 : bufCount buf = 0
    · simp [h0] at h
      omega
    · have e0 : (bufCount buf == 0) = false := by simp [h0]
      by_cases h1 : bufCount buf = 1
      · simp only [e0, Bool.false_eq_true, if_false, h1] at h ⊢
        cases hs : dbm.singleExec (rowArgs buf 0) with
        | none => rw [hs] at h; simp at h; omega
        | some m => rw [hs] at h; simp at h
      · have e1 : (bufCount buf == 1) = false := by simp [h1]
        simp only [e0, e1, Bool.false_eq_true, if_false] at h
        cases hb : dbm.bulkExec buf with
        | none =>
          rw [hb] at h
          simp at h
          omega
        | some m =>
          rw [hb] at h
          cases hf : firstRowFailure dbm.singleExec buf 0 (bufCount buf) with
          | none => rw [hf] at h; simp at h
          | some p => rw [hf] at h; cases p; simp at h

/-- Scenario A (spec §8): the target table of three columns. -/
def colsABC : List TableColumnInfo :=
  [⟨"ID", "NUMBER", 22⟩, ⟨"NAME", "VARCHAR2", 50⟩, ⟨"EMAIL", "VARCHAR2", 100⟩]

/-- One valid data row of scenario A. -/
def rowA : List String := ["1", "alice", "ab"]

/-- The header→index mapping scenario A's case-variant headers produce. -/
def mapA : List (String × Nat) := [("ID", 0), ("NAME", 1), ("EMAIL", 2)]

/-- The column buffers after `b` buffered copies of `rowA`. -/
def bufA (b : Nat) : List (List CellValue) :=
  [List.replicate b (CellValue.str "1"), List.replicate b (CellValue.str "alice"),
    List.replicate b (CellValue.str "ab")]

/-- The flush trace accumulated up to data row `i` of scenario A. -/
def trA (i : Nat) : List (Nat × Nat) := if i < 1000 then [] else [(0, 1000)]

/-- One-step unfolding of the loop at a row that coerces successfully
and triggers a successful flush. -/
theorem importLoop_step_flush {d : Dialect} {dbm : DBModel}
    {cols : List TableColumnInfo} {mapping : List (String × Nat)}
    {total i : Nat} {row : List String} {rest : List (List String)}
    {buf : List (List CellValue)} {succ : Nat} {tr : List (Nat × Nat)}
    {vals : List CellValue} {n : Nat}
    (hc : coerceRow d cols mapping row = .ok vals)
    (hif : ((i + 1) % batchSize == 0 || i == total - 1) = true)
    (hf : flushD d dbm (List.zipWith (fun col v => col ++ [v]) buf vals)
        (i / batchSize * batchSize) = .ok n) :
    importLoop d dbm cols mapping total i (row :: rest) buf succ tr
      = importLoop d dbm cols mapping total (i + 1) rest (cols.map fun _ => [])
          (succ + n) (tr ++ [(i / batchSize * batchSize,
            bufCount (List.zipWith (fun col v => col ++ [v]) buf vals))]) := by
  simp only [importLoop, hc, hif, if_true, hf]

/-- One-step unfolding of the loop at a row that coerces successfully
and does not reach a flush boundary. -/
theorem importLoop_step_buffer {d : Dialect} {dbm : DBModel}
    {cols : List TableColumnInfo} {mapping : List (String × Nat)}
    {total i : Nat} {row : List String} {rest : List (List String)}
    {buf : List (List CellValue)} {succ : Nat} {tr : List (Nat × Nat)}
    {vals : List CellValue}
    (hc : coerceRow d cols mapping row = .ok vals)
    (hif : ((i + 1) % batchSize == 0 || i == total - 1) = false) :
    importLoop d dbm cols mapping total i (row :: rest) buf succ tr
      = importLoop d dbm cols mapping total (i + 1) rest
          (List.zipWith (fun col v => col ++ [v]) buf vals) succ tr := by
  simp only [importLoop, hc, hif, Bool.false_eq_true, if_false]

/-- Invariant run of scenario A: from any loop state reachable at data
row `1499 - m` the remaining `m + 1` copies of `rowA` finish with
`successCount = 1500` and the two-flush trace. -/
theorem importLoop_gridA (m : Nat) (hm : m ≤ 1499) :
    importLoop .oracle dbmAllOk colsABC mapA 1500 (1499 - m)
        (List.replicate (m + 1) rowA) (bufA ((1499 - m) % 1000))
        ((1499 - m) - (1499 - m) % 1000) (trA (1499 - m))
      = (.ok 1500 1500, [(0, 1000), (1000, 500)]) := by
  induction m with
  | zero => rfl
  | succ k ih =>
    have hk : k ≤ 1499 := by omega
    have hk1498 : k ≤ 1498 := by omega
    have hi : 1499 - (k + 1) = 1498 - k := by omega
    rw [hi]
    have hcoerce : coerceRow .oracle colsABC mapA rowA
        = .ok [CellValue.str "1", CellValue.str "alice", CellValue.str "ab"] := rfl
    rw [List.replicate_succ]
    have hbuf2 : List.zipWith (fun col v => col ++ [v]) (bufA ((1498 - k) % 1000))
        [CellValue.str "1", CellValue.str "alice", CellValue.str "ab"]
        = bufA ((1498 - k) % 1000 + 1) := by
      simp [bufA, List.zipWith, List.replicate_succ']
    have hlast : ((1498 - k : Nat) == 1500 - 1) = false := by
      simp only [beq_eq_false_iff_ne, ne_eq]
      omega
    by_cases h999 : k = 499
    · subst h999
      have hflush : flushD .oracle dbmAllOk
          (List.zipWith (fun col v => col ++ [v]) (bufA ((1498 - 499) % 1000))
            [CellValue.str "1", CellValue.str "alice", CellValue.str "ab"])
          ((1498 - 499) / batchSize * batchSize) = .ok 1000 := by
        rw [hbuf2]
        rw [flushD_allOk .oracle (bufA ((1498 - 499) % 1000 + 1))
          ((1498 - 499) / batchSize * batchSize)]
        rw [show bufCount (bufA ((1498 - 499) % 1000 + 1)) = 1000 by
          simp [bufCount, bufA]]
      rw [importLoop_step_flush hcoerce (by decide) hflush]
      rw [hbuf2]
      rw [show bufCount (bufA ((1498 - 499) % 1000 + 1)) = 1000 by
        simp [bufCount, bufA]]
      exact ih hk
    · have hmod : ((1498 - k + 1) % batchSize == 0) = false := by
        simp only [beq_eq_false_iff_ne, ne_eq, batchSize]
        omega
      have hmodN : (1499 - k) % 1000 ≠ 0 := by
        simp only [beq_eq_false_iff_ne, ne_eq, batchSize] at hmod
        omega
      have hcond : ((1498 - k + 1) % batchSize == 0 || (1498 - k : Nat) == 1500 - 1)
          = false := by
        simp [hmod, hlast]
      rw [importLoop_step_buffer hcoerce hcond]
      rw [hbuf2]
      rw [show (1498 - k) % 1000 + 1 = (1499 - k) % 1000 by omega]
      rw [show (1498 - k) - (1498 - k) % 1000 = (1499 - k) - (1499 - k) % 1000 by omega]
      rw [show (1498 - k) + 1 = 1499 - k by omega]
      rw [show trA (1498 - k) = trA (1499 - k) by
        unfold trA
        by_cases hlt : 1499 - k < 1000
        · rw [if_pos hlt, if_pos (by omega)]
        · rw [if_neg hlt, if_neg (by omega)]]
      exact ih hk

/-- The scenario A grid: case-variant headers and 1500 valid data rows. -/
def gridA : List (List String) :=
  ["Id", "name", "Email"] :: List.replicate 1500 rowA

/-- End-to-end run of scenario A. -/
theorem importRows_gridA :
    importRows "oracle" dbmAllOk colsABC gridA
      = some (.ok 1500 1500, [(0, 1000), (1000, 500)]) := by
  have h := importLoop_gridA 1499 (by omega)
  show some (importLoop .oracle dbmAllOk colsABC
      (matchHeaders colsABC ["Id", "name", "Email"]).1
      (List.replicate 1500 rowA).length 0 (List.replicate 1500 rowA)
      (colsABC.map fun _ => []) 0 []) = _
  rw [show (matchHeaders colsABC ["Id", "name", "Email"]).1 = mapA from rfl]
  rw [List.length_replicate]
  exact congrArg some h

/-- C5.  Flushing happens exactly at the loop's trigger: off the trigger
condition `(i+1) % batchSize == 0 || i == total-1` the row is only
buffered (second conjunct), and on it a successful flush restarts every
column buffer at the empty list, adds the flush's count to
`successCount` and extends the trace (third conjunct), where that count
is exactly the buffered row count `B` (first conjunct).  Scenario A —
1500 valid data rows against an always-accepting database — terminates
with `successCount = 1500` after exactly two flushes, of 1000 rows
starting at batch index 0 and of 500 rows starting at batch index 1000
(so the buffers were cleared to size 0 between the flushes). -/
theorem batchFlushingSpec :
    (∀ (d : Dialect) (dbm : DBModel) (buf : List (List CellValue)) (s n : Nat),
        flushD d dbm buf s = .ok n → n = bufCount buf)
    ∧ (∀ (d : Dialect) (dbm : DBModel) (cols : List TableColumnInfo)
        (mapping : List (String × Nat)) (total i : Nat) (row : List String)
        (rest : List (List String)) (buf : List (List CellValue)) (succ : Nat)
        (tr : List (Nat × Nat)) (vals : List CellValue),
        coerceRow d cols mapping row = .ok vals →
        ((i + 1) % batchSize == 0 || i == total - 1) = false →
        importLoop d dbm cols mapping total i (row :: rest) buf succ tr
          = importLoop d dbm cols mapping total (i + 1) rest
              (List.zipWith (fun col v => col ++ [v]) buf vals) succ tr)
    ∧ (∀ (d : Dialect) (dbm : DBModel) (cols : List TableColumnInfo)
        (mapping : List (String × Nat)) (total i : Nat) (row : List String)
        (rest : List (List String)) (buf : List (List CellValue)) (succ : Nat)
        (tr : List (Nat × Nat)) (vals : List CellValue) (n : Nat),
        coerceRow d cols mapping row = .ok vals →
        ((i + 1) % batchSize == 0 || i == total - 1) = true →
        flushD d dbm (List.zipWith (fun col v => col ++ [v]) buf vals)
            (i / batchSize * batchSize) = .ok n →
        importLoop d dbm cols mapping total i (row :: rest) buf succ tr
          = importLoop d dbm cols mapping total (i + 1) rest (cols.map fun _ => [])
              (succ + n) (tr ++ [(i / batchSize * batchSize,
                bufCount (List.zipWith (fun col v => col ++ [v]) buf vals))]))
    ∧ importRows "oracle" dbmAllOk colsABC gridA
        = some (.ok 1500 1500, [(0, 1000), (1000, 500)]) :=
  ⟨flushD_ok_count,
    fun _ _ _ _ _ _ _ _ _ _ _ _ hc hif => importLoop_step_buffer hc hif,
    fun _ _ _ _ _ _ _ _ _ _ _ _ _ hc hif hf => importLoop_step_flush hc hif hf,
    importRows_gridA⟩

/-- Witness for `batchFlushingSpec` at a concrete flush. -/
theorem batchFlushingWitness :
    flushD Dialect.oracle dbmAllOk [[CellValue.str "a", CellValue.str "b"]] 0
        = .ok 2
    ∧ 2 = bufCount [[CellValue.str "a", CellValue.str "b"]] :=
  ⟨rfl, batchFlushingSpec.1 Dialect.oracle dbmAllOk
    [[CellValue.str "a", CellValue.str "b"]] 0 2 rfl⟩
